import Mathlib

/-!
Shallow embedding of the `spaceship_sim` physical simulation engine
(`physics.py`, `components.py`, `spaceship.py`) over the real numbers.
Python floats are modelled by `ℝ`; the mutable fuel-tank state of
`compute_propulsion` is modelled by explicit state passing (the function
returns the updated tank list alongside its `PropulsionResult`).
-/

namespace SpaceSim

abbrev Vec2 := ℝ × ℝ

/-- `EARTH_GRAVITY` constant from `physics.py`. -/
def EARTH_GRAVITY : ℝ := 9.80665

/-- `ATMOSPHERIC_DENSITY` constant from `physics.py`. -/
def ATMOSPHERIC_DENSITY : ℝ := 1.225

/-- `DRAG_COEFFICIENT` constant from `physics.py`. -/
def DRAG_COEFFICIENT : ℝ := 0.7

/-- `add` from `physics.py`. -/
def add (a b : Vec2) : Vec2 := (a.1 + b.1, a.2 + b.2)

/-- `sub` from `physics.py`. -/
def sub (a b : Vec2) : Vec2 := (a.1 - b.1, a.2 - b.2)

/-- `mul` from `physics.py` (scalar multiply). -/
def mul (a : Vec2) (scalar : ℝ) : Vec2 := (a.1 * scalar, a.2 * scalar)

/-- `length` from `physics.py` (`math.hypot`). -/
noncomputable def length (v : Vec2) : ℝ := Real.sqrt (v.1 ^ 2 + v.2 ^ 2)

/-- `normalize` from `physics.py`. -/
noncomputable def normalize (v : Vec2) : Vec2 :=
  if length v = 0 then (0, 0) else (v.1 / length v, v.2 / length v)

/-- `rotate` from `physics.py`. -/
noncomputable def rotate (v : Vec2) (angle : ℝ) : Vec2 :=
  (v.1 * Real.cos angle - v.2 * Real.sin angle,
   v.1 * Real.sin angle + v.2 * Real.cos angle)

/-- `dot` from `physics.py`. -/
def dot (a b : Vec2) : ℝ := a.1 * b.1 + a.2 * b.2

/-- `cross_z` from `physics.py`. -/
def cross_z (a b : Vec2) : ℝ := a.1 * b.2 - a.2 * b.1

/-- `math.degrees`. -/
noncomputable def degrees (x : ℝ) : ℝ := x * 180 / Real.pi

/-- `math.radians`. -/
noncomputable def radians (x : ℝ) : ℝ := x * Real.pi / 180

/-- `math.atan2` (two-argument arctangent). -/
noncomputable def atan2 (y x : ℝ) : ℝ :=
  if 0 < x then Real.arctan (y / x)
  else if x < 0 ∧ 0 ≤ y then Real.arctan (y / x) + Real.pi
  else if x < 0 ∧ y < 0 then Real.arctan (y / x) - Real.pi
  else if x = 0 ∧ 0 < y then Real.pi / 2
  else if x = 0 ∧ y < 0 then -(Real.pi / 2)
  else 0

/-- `Component` dataclass from `components.py` (physical attributes read
by the engine). -/
structure Component where
  name : String
  mass : ℝ
  position : Vec2
  size : Vec2
  drag_area : ℝ
  inertia_override : Option ℝ

/-- `Component.inertia` property from `components.py`. -/
noncomputable def Component.inertia (c : Component) : ℝ :=
  match c.inertia_override with
  | some i => i
  | none => c.mass * (c.size.1 ^ 2 + c.size.2 ^ 2) / 12

/-- `Engine` dataclass from `components.py`. -/
structure Engine extends Component where
  thrust : ℝ
  fuel_consumption : ℝ
  gimbal_limit : ℝ
  direction : Vec2

/-- `FuelTank` dataclass from `components.py`. -/
structure FuelTank extends Component where
  fuel_capacity : ℝ
  fuel_level : ℝ

/-- `Wing` dataclass from `components.py`. -/
structure Wing extends Component where
  area : ℝ
  lift_curve : ℝ
  stall_angle : ℝ

/-- `aerodynamic_drag` from `physics.py`. -/
noncomputable def aerodynamic_drag (velocity : Vec2) (reference_area : ℝ)
    (cd : ℝ) : Vec2 :=
  if length velocity = 0 then (0, 0)
  else mul (normalize (mul velocity (-1)))
    (0.5 * ATMOSPHERIC_DENSITY * cd * reference_area * length velocity ^ 2)

/-- `aerodynamic_lift` from `physics.py`. -/
noncomputable def aerodynamic_lift (wing : Wing) (velocity_body : Vec2) : Vec2 :=
  if length velocity_body = 0 then (0, 0)
  else
    let angle := degrees (atan2 velocity_body.2 velocity_body.1)
    let alpha := max (min (-angle) wing.stall_angle) (-wing.stall_angle)
    let cl := wing.lift_curve * radians alpha
    let q := 0.5 * ATMOSPHERIC_DENSITY * length velocity_body ^ 2
    mul (0, 1) (cl * q * wing.area)

/-- `PropulsionResult` dataclass from `physics.py`. -/
structure PropulsionResult where
  force : Vec2
  torque : ℝ
  fuel_used : ℝ

/-- `ForceResult` dataclass from `physics.py`. -/
structure ForceResult where
  linear : Vec2
  torque : ℝ

/-- Body of the engine loop in `compute_propulsion`: accumulates
(total_force, total_torque, fuel_needed). -/
noncomputable def propStep (throttle orientation : ℝ) (com : Vec2)
    (acc : Vec2 × ℝ × ℝ) (engine : Engine) : Vec2 × ℝ × ℝ :=
  let thrust_vector := rotate engine.direction orientation
  let thrust_force := mul thrust_vector (engine.thrust * throttle)
  let lever := sub engine.position com
  (add acc.1 thrust_force, acc.2.1 + cross_z lever thrust_force,
   acc.2.2 + engine.fuel_consumption * throttle)

/-- The engine loop of `compute_propulsion` as a fold. -/
noncomputable def propAccum (engines : List Engine) (throttle orientation : ℝ)
    (com : Vec2) : Vec2 × ℝ × ℝ :=
  engines.foldl (propStep throttle orientation com) ((0, 0), 0, 0)

/-- `sum(tank.fuel_level for tank in fuel_tanks)`. -/
def tankSum (tanks : List FuelTank) : ℝ :=
  (tanks.map (fun tank => tank.fuel_level)).sum

/-- The fuel-drain loop of `compute_propulsion`: drains `drain` units
tank by tank in list order, stopping once the drain is satisfied. -/
noncomputable def drainTanks : List FuelTank → ℝ → List FuelTank
  | [], _ => []
  | tank :: ts, drain =>
    if drain ≤ 0 then tank :: ts
    else
      let taken := min tank.fuel_level drain
      { tank with fuel_level := tank.fuel_level - taken } :: drainTanks ts (drain - taken)

/-- `compute_propulsion` from `physics.py`; the in-place tank mutation is
returned as the second component. -/
noncomputable def compute_propulsion (engines : List Engine)
    (fuel_tanks : List FuelTank) (throttle orientation : ℝ) (com : Vec2) :
    PropulsionResult × List FuelTank :=
  let t := max 0 (min 1 throttle)
  let acc := propAccum engines t orientation com
  let fuel_needed := acc.2.2
  let fuel_available := tankSum fuel_tanks
  let fuel_used := min fuel_available fuel_needed
  let scaled :=
    if 0 < fuel_needed then
      (mul acc.1 (fuel_used / fuel_needed), acc.2.1 * (fuel_used / fuel_needed))
    else (acc.1, acc.2.1)
  let tanks2 := if 0 < fuel_used then drainTanks fuel_tanks fuel_used else fuel_tanks
  (⟨scaled.1, scaled.2, fuel_used⟩, tanks2)

/-- Body of the drag loop in `compute_aero_forces`. -/
noncomputable def dragStep (velocity : Vec2) (angular_velocity orientation : ℝ)
    (com : Vec2) (acc : Vec2 × ℝ) (comp : Component) : Vec2 × ℝ :=
  let world_velocity := add velocity
    (-angular_velocity * (comp.position.2 - com.2),
     angular_velocity * (comp.position.1 - com.1))
  let drag_force_body := aerodynamic_drag (rotate world_velocity (-orientation))
    comp.drag_area DRAG_COEFFICIENT
  let drag_force_world := rotate drag_force_body orientation
  let lever := sub comp.position com
  (add acc.1 drag_force_world, acc.2 + cross_z lever drag_force_world)

/-- Body of the lift loop in `compute_aero_forces`. -/
noncomputable def liftStep (velocity : Vec2) (angular_velocity orientation : ℝ)
    (com : Vec2) (acc : Vec2 × ℝ) (wing : Wing) : Vec2 × ℝ :=
  let world_velocity := add velocity
    (-angular_velocity * (wing.position.2 - com.2),
     angular_velocity * (wing.position.1 - com.1))
  let velocity_body := rotate world_velocity (-orientation)
  let lift_body := aerodynamic_lift wing velocity_body
  let lift_world := rotate lift_body orientation
  let lever := sub wing.position com
  (add acc.1 lift_world, acc.2 + cross_z lever lift_world)

/-- `compute_aero_forces` from `physics.py`. -/
noncomputable def compute_aero_forces (components : List Component)
    (wings : List Wing) (velocity : Vec2) (angular_velocity orientation : ℝ)
    (com : Vec2) : ForceResult :=
  let acc1 := components.foldl (dragStep velocity angular_velocity orientation com)
    ((0, 0), 0)
  let acc2 := wings.foldl (liftStep velocity angular_velocity orientation com) acc1
  ⟨acc2.1, acc2.2⟩

/-- `integrate` from `physics.py` (semi-implicit Euler step). -/
noncomputable def integrate (position velocity : Vec2)
    (orientation angular_velocity : ℝ) (force : Vec2) (torque mass inertia dt : ℝ) :
    Vec2 × Vec2 × ℝ × ℝ :=
  let acceleration := if 0 < mass then mul force (1 / mass) else (0, 0)
  let velocity2 := add velocity (mul acceleration dt)
  let position2 := add position (mul velocity2 dt)
  let angular_acc := if 0 < inertia then torque / inertia else 0
  let angular_velocity2 := angular_velocity + angular_acc * dt
  let orientation2 := orientation + angular_velocity2 * dt
  (position2, velocity2, orientation2, angular_velocity2)

/-- `Spaceship` dataclass from `spaceship.py` (kinematic state plus the
role-partitioned component lists). -/
structure Spaceship where
  components : List Component
  engines : List Engine
  fuel_tanks : List FuelTank
  wings : List Wing
  position : Vec2
  velocity : Vec2
  orientation : ℝ
  angular_velocity : ℝ

/-- `Spaceship.all_components`: generic components, then engines, then
fuel tanks, then wings, viewed through their shared physical attributes. -/
def Spaceship.all_components (s : Spaceship) : List Component :=
  s.components ++ s.engines.map Engine.toComponent
    ++ s.fuel_tanks.map FuelTank.toComponent ++ s.wings.map Wing.toComponent

/-- `Spaceship.mass` property. -/
def Spaceship.mass (s : Spaceship) : ℝ :=
  (s.all_components.map (fun comp => comp.mass)).sum

/-- `Spaceship.center_of_mass` property. -/
noncomputable def Spaceship.center_of_mass (s : Spaceship) : Vec2 :=
  if s.mass = 0 then (0, 0)
  else
    ((s.all_components.map (fun comp => comp.position.1 * comp.mass)).sum / s.mass,
     (s.all_components.map (fun comp => comp.position.2 * comp.mass)).sum / s.mass)

/-- `Spaceship.moment_of_inertia` property. -/
noncomputable def Spaceship.moment_of_inertia (s : Spaceship) : ℝ :=
  let com := s.center_of_mass
  (s.all_components.map (fun comp =>
    comp.inertia + comp.mass *
      ((comp.position.1 - com.1) ^ 2 + (comp.position.2 - com.2) ^ 2))).sum

/-- `Spaceship.total_drag_area`. -/
def Spaceship.total_drag_area (s : Spaceship) : ℝ :=
  (s.all_components.map (fun comp => comp.drag_area)).sum

/-- `Spaceship.apply_controls` from `spaceship.py`; the tank drain done
inside `compute_propulsion` is threaded through as part of the result. -/
noncomputable def Spaceship.apply_controls (s : Spaceship) (throttle : ℝ)
    (control_surfaces : List (String × ℝ)) :
    (PropulsionResult × List FuelTank) × ForceResult :=
  let com := s.center_of_mass
  let pr := compute_propulsion s.engines s.fuel_tanks throttle s.orientation com
  let s2 := { s with fuel_tanks := pr.2 }
  let aero := compute_aero_forces s2.all_components s.wings s.velocity
    s.angular_velocity s.orientation com
  (pr, aero)

/-- `Spaceship.simulate_step` from `spaceship.py`. -/
noncomputable def Spaceship.simulate_step (s : Spaceship) (throttle dt : ℝ)
    (control_surfaces : List (String × ℝ)) : Spaceship :=
  let pa := s.apply_controls throttle control_surfaces
  let propulsion := pa.1.1
  let aero := pa.2
  let s2 := { s with fuel_tanks := pa.1.2 }
  let weight : Vec2 := (0, -s2.mass * EARTH_GRAVITY)
  let total_force := add (add propulsion.force aero.linear) weight
  let gravity_torque : ℝ := 0
  let total_torque := propulsion.torque + aero.torque + gravity_torque
  let r := integrate s2.position s2.velocity s2.orientation s2.angular_velocity
    total_force total_torque s2.mass (max s2.moment_of_inertia 0.001) dt
  { s2 with position := r.1, velocity := r.2.1, orientation := r.2.2.1,
            angular_velocity := r.2.2.2 }

/-- Modelled from the spec: the semi-implicit (symplectic) Euler update of
section 4.4, written out componentwise: acceleration is force over mass
(zero when mass is not positive), velocity is updated first, and the
position update uses the updated velocity; likewise angular velocity is
updated before the orientation update uses it. -/
noncomputable def integrateSpecSemiImplicit (position velocity : Vec2)
    (orientation angular_velocity : ℝ) (force : Vec2) (torque mass inertia dt : ℝ) :
    Vec2 × Vec2 × ℝ × ℝ :=
  let ax := if 0 < mass then force.1 / mass else 0
  let ay := if 0 < mass then force.2 / mass else 0
  let vx := velocity.1 + ax * dt
  let vy := velocity.2 + ay * dt
  let px := position.1 + vx * dt
  let py := position.2 + vy * dt
  let alpha := if 0 < inertia then torque / inertia else 0
  let omega := angular_velocity + alpha * dt
  let theta := orientation + omega * dt
  ((px, py), (vx, vy), theta, omega)

/-- Modelled from the spec: the explicit-Euler ordering that section 4.4
forbids — the position and orientation updates use the pre-update velocity
and angular velocity. -/
noncomputable def integrateSpecExplicit (position velocity : Vec2)
    (orientation angular_velocity : ℝ) (force : Vec2) (torque mass inertia dt : ℝ) :
    Vec2 × Vec2 × ℝ × ℝ :=
  let ax := if 0 < mass then force.1 / mass else 0
  let ay := if 0 < mass then force.2 / mass else 0
  let vx := velocity.1 + ax * dt
  let vy := velocity.2 + ay * dt
  let px := position.1 + velocity.1 * dt
  let py := position.2 + velocity.2 * dt
  let alpha := if 0 < inertia then torque / inertia else 0
  let omega := angular_velocity + alpha * dt
  let theta := orientation + angular_velocity * dt
  ((px, py), (vx, vy), theta, omega)

/-- Everything observable about a fuel tank except its fuel level: the
inherited component attributes together with the capacity. -/
def tankChassis (tank : FuelTank) : Component × ℝ :=
  (tank.toComponent, tank.fuel_capacity)

/-- A craft with no attached components at all. -/
def emptyShip : Spaceship := ⟨[], [], [], [], (0, 0), (0, 0), 0, 0⟩

/-- A craft carrying exactly two generic components and nothing else. -/
def pairShip (c1 c2 : Component) : Spaceship :=
  ⟨[c1, c2], [], [], [], (0, 0), (0, 0), 0, 0⟩

/-- The starvation-scenario engine of spec section 8: it needs 10
fuel-mass per second at full throttle. -/
def scenarioEngine : Engine :=
  ⟨⟨"main engine", 1, (0, 0), (1, 1), 0, none⟩, 100, 10, 0, (1, 0)⟩

/-- The starvation-scenario tank of spec section 8: 5 units of fuel. -/
def scenarioTank : FuelTank :=
  ⟨⟨"tank", 1, (0, 0), (1, 1), 0, none⟩, 5, 5⟩

/-- The vertical-ascent craft of spec section 8: one engine whose thrust
direction, rotated by the fixed 90-degree orientation, points world-up;
engine and tank sit at the origin so no torque arises; every drag area is
zero and there are no wings. -/
noncomputable def ascentShip (me mt T c cap L py vy : ℝ) : Spaceship :=
  { components := [],
    engines := [⟨⟨"lift engine", me, (0, 0), (0, 0), 0, none⟩, T, c, 0, (1, 0)⟩],
    fuel_tanks := [⟨⟨"lift tank", mt, (0, 0), (0, 0), 0, none⟩, cap, L⟩],
    wings := [],
    position := (0, py),
    velocity := (0, vy),
    orientation := Real.pi / 2,
    angular_velocity := 0 }

/-- The ascent trajectory: repeated `simulate_step` at full throttle. -/
noncomputable def ascentIter (me mt T c cap L dt : ℝ)
    (cs : List (String × ℝ)) : ℕ → Spaceship
  | 0 => ascentShip me mt T c cap L 0 0
  | k + 1 => (ascentIter me mt T c cap L dt cs k).simulate_step 1 dt cs

/-- Closed form of the ascent craft's vertical velocity after `k` ticks. -/
noncomputable def ascentVel (me mt T dt : ℝ) (k : ℕ) : ℝ :=
  k * ((T / (me + mt) - EARTH_GRAVITY) * dt)

/-- Closed form of the ascent craft's altitude after `k` ticks. -/
noncomputable def ascentPosY (me mt T dt : ℝ) : ℕ → ℝ
  | 0 => 0
  | k + 1 => ascentPosY me mt T dt k + ascentVel me mt T dt (k + 1) * dt

/-! ## Basic lemmas about the vector primitives -/

theorem length_zero_vec : length (0 : Vec2) = 0 := by
  simp [length]

theorem rotate_zero_vec (angle : ℝ) : rotate (0 : Vec2) angle = 0 := by
  simp [rotate]

theorem add_zero_vec (a : Vec2) : add a 0 = a := by
  simp [add]

theorem cross_z_zero_vec (a : Vec2) : cross_z a 0 = 0 := by
  simp [cross_z]

theorem aerodynamic_drag_zero_vel (reference_area cd : ℝ) :
    aerodynamic_drag (0 : Vec2) reference_area cd = 0 := by
  simp [aerodynamic_drag, length_zero_vec]

theorem aerodynamic_lift_zero_vel (w : Wing) :
    aerodynamic_lift w (0 : Vec2) = 0 := by
  simp [aerodynamic_lift, length_zero_vec]

theorem foldl_fixed {α β : Type _} (f : β → α → β) (h : ∀ b a, f b a = b) :
    ∀ (l : List α) (b : β), l.foldl f b = b := by
  intro l
  induction l with
  | nil => intro b; rfl
  | cons x xs ih => intro b; rw [List.foldl_cons, h b x]; exact ih b

/-! ## Lemmas about the fuel bookkeeping -/

theorem tankSum_nil : tankSum [] = 0 := rfl

theorem tankSum_cons (t : FuelTank) (ts : List FuelTank) :
    tankSum (t :: ts) = t.fuel_level + tankSum ts := by
  simp [tankSum]

theorem tankSum_nonneg : ∀ (tanks : List FuelTank),
    (∀ t ∈ tanks, 0 ≤ t.fuel_level) → 0 ≤ tankSum tanks := by
  intro tanks
  induction tanks with
  | nil => intro _; simp [tankSum]
  | cons t ts ih =>
    intro h
    rw [tankSum_cons]
    have h1 := h t (List.mem_cons_self t ts)
    have h2 := ih (fun x hx => h x (List.mem_cons_of_mem t hx))
    linarith

theorem drainTanks_sum : ∀ (tanks : List FuelTank) (d : ℝ),
    (∀ t ∈ tanks, 0 ≤ t.fuel_level) → 0 ≤ d → d ≤ tankSum tanks →
    tankSum (drainTanks tanks d) = tankSum tanks - d := by
  intro tanks
  induction tanks with
  | nil =>
    intro d _ hd hle
    rw [tankSum_nil] at hle
    have : d = 0 := le_antisymm hle hd
    simp [drainTanks, tankSum, this]
  | cons t ts ih =>
    intro d h hd hle
    rw [drainTanks]
    by_cases hdz : d ≤ 0
    · rw [if_pos hdz]
      have : d = 0 := le_antisymm hdz hd
      rw [this]; ring
    · rw [if_neg hdz]
      have ht0 : 0 ≤ t.fuel_level := h t (List.mem_cons_self t ts)
      have hts : ∀ x ∈ ts, 0 ≤ x.fuel_level :=
        fun x hx => h x (List.mem_cons_of_mem t hx)
      have hsum0 : 0 ≤ tankSum ts := tankSum_nonneg ts hts
      have h1 : 0 ≤ d - min t.fuel_level d := by
        have := min_le_right t.fuel_level d
        linarith
      have h2 : d - min t.fuel_level d ≤ tankSum ts := by
        rw [tankSum_cons] at hle
        rcases min_le_iff.mpr (Or.inl (le_refl t.fuel_level)) with _
        rcases le_total t.fuel_level d with hc | hc
        · rw [min_eq_left hc]; linarith
        · rw [min_eq_right hc]; linarith
      rw [tankSum_cons, tankSum_cons, ih (d - min t.fuel_level d) hts h1 h2]
      simp only []
      ring

theorem drainTanks_inv : ∀ (tanks : List FuelTank) (d : ℝ),
    (∀ t ∈ tanks, 0 ≤ t.fuel_level ∧ t.fuel_level ≤ t.fuel_capacity) →
    ∀ t ∈ drainTanks tanks d, 0 ≤ t.fuel_level ∧ t.fuel_level ≤ t.fuel_capacity := by
  intro tanks
  induction tanks with
  | nil => intro d _ t ht; simp [drainTanks] at ht
  | cons tk ts ih =>
    intro d h t ht
    rw [drainTanks] at ht
    by_cases hdz : d ≤ 0
    · rw [if_pos hdz] at ht
      exact h t ht
    · rw [if_neg hdz] at ht
      rcases List.mem_cons.mp ht with rfl | hmem
      · obtain ⟨h0, hcap⟩ := h tk (List.mem_cons_self tk ts)
        have hdpos : 0 < d := not_le.mp hdz
        have hmin_le : min tk.fuel_level d ≤ tk.fuel_level := min_le_left _ _
        have hmin_nn : 0 ≤ min tk.fuel_level d := le_min h0 (le_of_lt hdpos)
        constructor
        · simp only []
          linarith
        · simp only []
          linarith
      · exact ih (d - min tk.fuel_level d)
          (fun x hx => h x (List.mem_cons_of_mem tk hx)) t hmem

theorem drainTanks_chassis : ∀ (tanks : List FuelTank) (d : ℝ),
    (drainTanks tanks d).map tankChassis = tanks.map tankChassis := by
  intro tanks
  induction tanks with
  | nil => intro d; rfl
  | cons tk ts ih =>
    intro d
    rw [drainTanks]
    by_cases hdz : d ≤ 0
    · rw [if_pos hdz]
    · rw [if_neg hdz]
      simp only [List.map_cons, ih]
      rfl

theorem drainTanks_toComponent : ∀ (tanks : List FuelTank) (d : ℝ),
    (drainTanks tanks d).map FuelTank.toComponent = tanks.map FuelTank.toComponent := by
  intro tanks
  induction tanks with
  | nil => intro d; rfl
  | cons tk ts ih =>
    intro d
    rw [drainTanks]
    by_cases hdz : d ≤ 0
    · rw [if_pos hdz]
    · rw [if_neg hdz]
      simp only [List.map_cons, ih]

theorem propAccum_fuel : ∀ (engines : List Engine) (t o : ℝ) (c : Vec2)
    (init : Vec2 × ℝ × ℝ),
    (engines.foldl (propStep t o c) init).2.2
      = init.2.2 + (engines.map (fun e => e.fuel_consumption * t)).sum := by
  intro engines t o c
  induction engines with
  | nil => intro init; simp
  | cons e es ih =>
    intro init
    rw [List.foldl_cons, ih]
    simp only [propStep, List.map_cons, List.sum_cons]
    ring

theorem propAccum_fuel_eq (engines : List Engine) (t o : ℝ) (c : Vec2) :
    (propAccum engines t o c).2.2
      = (engines.map (fun e => e.fuel_consumption * t)).sum := by
  rw [propAccum, propAccum_fuel]
  norm_num

theorem fuel_needed_nonneg (engines : List Engine) (t o : ℝ) (c : Vec2)
    (ht : 0 ≤ t) (hcons : ∀ e ∈ engines, 0 ≤ e.fuel_consumption) :
    0 ≤ (propAccum engines t o c).2.2 := by
  rw [propAccum_fuel_eq]
  apply List.sum_nonneg
  intro x hx
  simp only [List.mem_map] at hx
  obtain ⟨e, he, rfl⟩ := hx
  exact mul_nonneg (hcons e he) ht

/-! ## Claim theorems -/

/-- Claim C10: when the total component mass is zero — for example on a
craft with no attached components — the center-of-mass accessor returns
(0, 0) instead of dividing by the zero total mass. -/
theorem C10_zero_mass_com (s : Spaceship) (h : s.mass = 0) :
    s.center_of_mass = (0, 0) := by
  simp [Spaceship.center_of_mass, h]

theorem C10_zero_mass_com_witness :
    emptyShip.mass = 0 ∧ emptyShip.center_of_mass = (0, 0) :=
  ⟨by simp [emptyShip, Spaceship.mass, Spaceship.all_components],
   C10_zero_mass_com emptyShip
     (by simp [emptyShip, Spaceship.mass, Spaceship.all_components])⟩

/-- Claim C5: `integrate` implements the semi-implicit Euler step — the
velocity (and angular velocity) are updated first and the position (and
orientation) updates use the updated values, with zero acceleration when
mass (inertia) is not positive; at a concrete input the position produced
by `integrate` differs from the explicit-Euler position. -/
theorem C5_integrate_semi_implicit :
    (∀ (p v : Vec2) (o w : ℝ) (f : Vec2) (tq m i dt : ℝ),
        integrate p v o w f tq m i dt = integrateSpecSemiImplicit p v o w f tq m i dt)
    ∧ (integrate (0, 0) (0, 0) 0 0 (1, 0) 1 1 1 1).1 = (1, 0)
    ∧ (integrateSpecExplicit (0, 0) (0, 0) 0 0 (1, 0) 1 1 1 1).1 = (0, 0) := by
  refine ⟨?_, ?_, ?_⟩
  · intro p v o w f tq m i dt
    simp only [integrate, integrateSpecSemiImplicit, add, mul, Prod.mk.injEq]
    split_ifs <;> and_intros <;> first
    | trivial
    | ring
  · norm_num [integrate, add, mul]
  · norm_num [integrateSpecExplicit]

/-- Claim C6: on a craft made of exactly two identical components placed
symmetrically about the origin with no inertia override, the center of
mass is (0, 0) and the moment of inertia is twice one component's own
inertia plus mass times squared distance; a component without an override
has own inertia `mass * (w^2 + h^2) / 12`. -/
theorem C6_symmetric_pair (n1 n2 : String) (m px py w h da : ℝ) :
    (pairShip ⟨n1, m, (px, py), (w, h), da, none⟩
        ⟨n2, m, (-px, -py), (w, h), da, none⟩).center_of_mass = (0, 0)
    ∧ (pairShip ⟨n1, m, (px, py), (w, h), da, none⟩
        ⟨n2, m, (-px, -py), (w, h), da, none⟩).moment_of_inertia
      = 2 * (Component.inertia ⟨n1, m, (px, py), (w, h), da, none⟩
          + m * (px ^ 2 + py ^ 2))
    ∧ Component.inertia ⟨n1, m, (px, py), (w, h), da, none⟩
      = m * (w ^ 2 + h ^ 2) / 12 := by
  have hcom : (pairShip ⟨n1, m, (px, py), (w, h), da, none⟩
      ⟨n2, m, (-px, -py), (w, h), da, none⟩).center_of_mass = (0, 0) := by
    simp only [Spaceship.center_of_mass, Spaceship.mass, Spaceship.all_components,
      pairShip, List.map_cons, List.map_nil, List.sum_cons, List.sum_nil,
      List.append_nil, List.nil_append]
    split_ifs with hm
    · rfl
    · have h1 : px * m + (-px * m + 0) = 0 := by ring
      have h2 : py * m + (-py * m + 0) = 0 := by ring
      rw [h1, h2]
      simp
  refine ⟨hcom, ?_, by simp [Component.inertia]⟩
  simp only [Spaceship.moment_of_inertia, hcom]
  simp only [pairShip, Spaceship.all_components, List.append_nil, List.nil_append,
    List.map_cons, List.map_nil, List.sum_cons, List.sum_nil, Component.inertia]
  ring

/-- Claim C7: with zero linear velocity and zero angular velocity,
`compute_aero_forces` returns exactly zero force and zero torque, and both
`aerodynamic_drag` and `aerodynamic_lift` individually return the zero
vector at zero speed. -/
theorem C7_zero_speed_aero (comps : List Component) (ws : List Wing)
    (orientation : ℝ) (com : Vec2) :
    compute_aero_forces comps ws (0, 0) 0 orientation com = ⟨(0, 0), 0⟩
    ∧ (∀ reference_area cd, aerodynamic_drag (0, 0) reference_area cd = (0, 0))
    ∧ ∀ w : Wing, aerodynamic_lift w (0, 0) = (0, 0) := by
  refine ⟨?_, fun reference_area cd => aerodynamic_drag_zero_vel reference_area cd,
    fun w => aerodynamic_lift_zero_vel w⟩
  have hd : ∀ (b : Vec2 × ℝ) (comp : Component),
      dragStep (0, 0) 0 orientation com b comp = b := by
    intro b comp
    simp [dragStep, add, rotate_zero_vec, aerodynamic_drag_zero_vel,
      cross_z_zero_vec, add_zero_vec]
  have hl : ∀ (b : Vec2 × ℝ) (w : Wing),
      liftStep (0, 0) 0 orientation com b w = b := by
    intro b w
    simp [liftStep, add, rotate_zero_vec, aerodynamic_lift_zero_vel,
      cross_z_zero_vec, add_zero_vec]
  simp only [compute_aero_forces]
  rw [foldl_fixed _ hd comps, foldl_fixed _ hl ws]

/-- Claim C1: one call to `compute_propulsion` decreases the total tank
fuel by exactly the `fuel_used` it returns, and the per-tank invariant
`0 ≤ fuel_level ≤ fuel_capacity` is preserved (fuel-consumption rates are
nonnegative, as the data model requires of a rate). -/
theorem C1_fuel_conservation (engines : List Engine) (tanks : List FuelTank)
    (throttle orientation : ℝ) (com : Vec2)
    (hcons : ∀ e ∈ engines, 0 ≤ e.fuel_consumption)
    (hinv : ∀ t ∈ tanks, 0 ≤ t.fuel_level ∧ t.fuel_level ≤ t.fuel_capacity) :
    tankSum tanks - tankSum (compute_propulsion engines tanks throttle orientation com).2
        = (compute_propulsion engines tanks throttle orientation com).1.fuel_used
    ∧ ∀ t ∈ (compute_propulsion engines tanks throttle orientation com).2,
        0 ≤ t.fuel_level ∧ t.fuel_level ≤ t.fuel_capacity := by
  have h0 : ∀ t ∈ tanks, 0 ≤ t.fuel_level := fun t ht => (hinv t ht).1
  have havail : 0 ≤ tankSum tanks := tankSum_nonneg tanks h0
  have hneed : 0 ≤ (propAccum engines (max 0 (min 1 throttle)) orientation com).2.2 :=
    fuel_needed_nonneg engines _ orientation com (le_max_left 0 _) hcons
  simp only [compute_propulsion]
  by_cases hU : 0 < min (tankSum tanks)
      ((propAccum engines (max 0 (min 1 throttle)) orientation com).2.2)
  · rw [if_pos hU]
    constructor
    · rw [drainTanks_sum tanks _ h0 (le_of_lt hU) (min_le_left _ _)]
      ring
    · exact drainTanks_inv tanks _ hinv
  · rw [if_neg hU]
    have hz : min (tankSum tanks)
        ((propAccum engines (max 0 (min 1 throttle)) orientation com).2.2) = 0 :=
      le_antisymm (not_lt.mp hU) (le_min havail hneed)
    constructor
    · rw [hz]; ring
    · exact hinv

theorem C1_fuel_conservation_witness :
    (∀ e ∈ [scenarioEngine], 0 ≤ e.fuel_consumption)
    ∧ (∀ t ∈ [scenarioTank], 0 ≤ t.fuel_level ∧ t.fuel_level ≤ t.fuel_capacity)
    ∧ (tankSum [scenarioTank]
        - tankSum (compute_propulsion [scenarioEngine] [scenarioTank] 1 0 (0, 0)).2
          = (compute_propulsion [scenarioEngine] [scenarioTank] 1 0 (0, 0)).1.fuel_used
      ∧ ∀ t ∈ (compute_propulsion [scenarioEngine] [scenarioTank] 1 0 (0, 0)).2,
          0 ≤ t.fuel_level ∧ t.fuel_level ≤ t.fuel_capacity) :=
  ⟨by intro e he; simp only [List.mem_singleton] at he; subst he; norm_num [scenarioEngine],
   by intro t ht; simp only [List.mem_singleton] at ht; subst ht; norm_num [scenarioTank],
   C1_fuel_conservation [scenarioEngine] [scenarioTank] 1 0 (0, 0)
     (by intro e he; simp only [List.mem_singleton] at he; subst he; norm_num [scenarioEngine])
     (by intro t ht; simp only [List.mem_singleton] at ht; subst ht; norm_num [scenarioTank])⟩

/-- Claim C2: when the accumulated required fuel exceeds the total fuel
available, the returned force and torque are the nominal accumulated
values scaled by available over required, and `fuel_used` equals the
available fuel. -/
theorem C2_fuel_starvation_derate (engines : List Engine) (tanks : List FuelTank)
    (throttle orientation : ℝ) (com : Vec2)
    (h0 : ∀ t ∈ tanks, 0 ≤ t.fuel_level)
    (hgt : tankSum tanks
      < (propAccum engines (max 0 (min 1 throttle)) orientation com).2.2) :
    (compute_propulsion engines tanks throttle orientation com).1
      = ⟨mul (propAccum engines (max 0 (min 1 throttle)) orientation com).1
            (tankSum tanks
              / (propAccum engines (max 0 (min 1 throttle)) orientation com).2.2),
         (propAccum engines (max 0 (min 1 throttle)) orientation com).2.1
           * (tankSum tanks
              / (propAccum engines (max 0 (min 1 throttle)) orientation com).2.2),
         tankSum tanks⟩ := by
  have havail : 0 ≤ tankSum tanks := tankSum_nonneg tanks h0
  have hNpos : 0 < (propAccum engines (max 0 (min 1 throttle)) orientation com).2.2 :=
    lt_of_le_of_lt havail hgt
  have hmin : min (tankSum tanks)
      ((propAccum engines (max 0 (min 1 throttle)) orientation com).2.2)
        = tankSum tanks :=
    min_eq_left (le_of_lt hgt)
  simp only [compute_propulsion, hmin, if_pos hNpos]

/-- Claim C4: out-of-range throttle is clamped, never rejected — throttle
2.0 gives exactly the same stepped state and the same per-tick
force/torque/fuel_used as throttle 1.0, and throttle -1.0 the same as
throttle 0.0. -/
theorem C4_throttle_clamped (s : Spaceship) (dt : ℝ) (cs : List (String × ℝ))
    (engines : List Engine) (tanks : List FuelTank) (orientation : ℝ) (com : Vec2) :
    s.simulate_step 2 dt cs = s.simulate_step 1 dt cs
    ∧ s.simulate_step (-1) dt cs = s.simulate_step 0 dt cs
    ∧ compute_propulsion engines tanks 2 orientation com
        = compute_propulsion engines tanks 1 orientation com
    ∧ compute_propulsion engines tanks (-1) orientation com
        = compute_propulsion engines tanks 0 orientation com := by
  have h21 : max 0 (min 1 (2 : ℝ)) = max 0 (min 1 (1 : ℝ)) := by norm_num
  have h10 : max 0 (min 1 (-1 : ℝ)) = max 0 (min 1 (0 : ℝ)) := by norm_num
  have hp21 : ∀ (e : List Engine) (tk : List FuelTank) (o : ℝ) (cm : Vec2),
      compute_propulsion e tk 2 o cm = compute_propulsion e tk 1 o cm := by
    intro e tk o cm
    simp only [compute_propulsion, h21]
  have hp10 : ∀ (e : List Engine) (tk : List FuelTank) (o : ℝ) (cm : Vec2),
      compute_propulsion e tk (-1) o cm = compute_propulsion e tk 0 o cm := by
    intro e tk o cm
    simp only [compute_propulsion, h10]
  refine ⟨?_, ?_, hp21 engines tanks orientation com, hp10 engines tanks orientation com⟩
  · simp only [Spaceship.simulate_step, Spaceship.apply_controls, hp21]
  · simp only [Spaceship.simulate_step, Spaceship.apply_controls, hp10]

/-- The tank list returned by `compute_propulsion` keeps every attribute
of every tank except the fuel level. -/
theorem compute_propulsion_tanks_chassis (engines : List Engine)
    (tanks : List FuelTank) (throttle orientation : ℝ) (com : Vec2) :
    ((compute_propulsion engines tanks throttle orientation com).2).map tankChassis
      = tanks.map tankChassis := by
  simp only [compute_propulsion]
  split_ifs with h
  · exact drainTanks_chassis tanks _
  · rfl

/-- The tank list returned by `compute_propulsion` projects to the same
component list. -/
theorem compute_propulsion_tanks_toComponent (engines : List Engine)
    (tanks : List FuelTank) (throttle orientation : ℝ) (com : Vec2) :
    ((compute_propulsion engines tanks throttle orientation com).2).map
        FuelTank.toComponent
      = tanks.map FuelTank.toComponent := by
  simp only [compute_propulsion]
  split_ifs with h
  · exact drainTanks_toComponent tanks _
  · rfl

/-- Claim C8: `simulate_step` mutates only the kinematic state and the
tanks' fuel levels — the component/engine/wing lists are untouched and
every fuel tank keeps its name, mass, position, size, drag area,
inertia override and capacity, in the same list order. -/
theorem C8_frame_condition (s : Spaceship) (throttle dt : ℝ)
    (cs : List (String × ℝ)) :
    (s.simulate_step throttle dt cs).components = s.components
    ∧ (s.simulate_step throttle dt cs).engines = s.engines
    ∧ (s.simulate_step throttle dt cs).wings = s.wings
    ∧ (s.simulate_step throttle dt cs).fuel_tanks.map tankChassis
        = s.fuel_tanks.map tankChassis := by
  refine ⟨?_, ?_, ?_, ?_⟩
  · simp only [Spaceship.simulate_step, Spaceship.apply_controls]
  · simp only [Spaceship.simulate_step, Spaceship.apply_controls]
  · simp only [Spaceship.simulate_step, Spaceship.apply_controls]
  · simp only [Spaceship.simulate_step, Spaceship.apply_controls]
    exact compute_propulsion_tanks_chassis s.engines s.fuel_tanks throttle
      s.orientation s.center_of_mass

/-- Evaluation of the accumulated nominal propulsion for the starvation
scenario (one engine: thrust 100, fuel consumption 10, orientation 0). -/
theorem scenario_propAccum :
    propAccum [scenarioEngine] (max 0 (min 1 1)) 0 (0, 0) = ((100, 0), 0, 10) := by
  have hclamp : max 0 (min 1 (1 : ℝ)) = 1 := by norm_num
  rw [hclamp]
  norm_num [propAccum, propStep, scenarioEngine, rotate, mul, add, sub, cross_z]

theorem C2_fuel_starvation_derate_witness :
    (compute_propulsion [scenarioEngine] [scenarioTank] 1 0 (0, 0)).1.fuel_used = 5
    ∧ (compute_propulsion [scenarioEngine] [scenarioTank] 1 0 (0, 0)).1.force = (50, 0)
    ∧ (compute_propulsion [scenarioEngine] [scenarioTank] 1 0 (0, 0)).1.torque = 0
    ∧ tankSum (compute_propulsion [scenarioEngine] [scenarioTank] 1 0 (0, 0)).2 = 0 := by
  have hsum : tankSum [scenarioTank] = 5 := by norm_num [tankSum, scenarioTank]
  have key := C2_fuel_starvation_derate [scenarioEngine] [scenarioTank] 1 0 (0, 0)
    (by intro t ht; simp only [List.mem_singleton] at ht; subst ht; norm_num [scenarioTank])
    (by rw [scenario_propAccum, hsum]; norm_num)
  rw [key, scenario_propAccum, hsum]
  refine ⟨rfl, by norm_num [mul], by norm_num, ?_⟩
  have hdrain : (compute_propulsion [scenarioEngine] [scenarioTank] 1 0 (0, 0)).2
      = drainTanks [scenarioTank] 5 := by
    simp only [compute_propulsion, scenario_propAccum, hsum]
    norm_num
  rw [hdrain, drainTanks]
  norm_num [scenarioTank, drainTanks, tankSum]

/-! ## The vertical-ascent scenario -/

theorem aerodynamic_drag_zero_area (v : Vec2) (cd : ℝ) :
    aerodynamic_drag v 0 cd = 0 := by
  simp only [aerodynamic_drag]
  split_ifs with h
  · rfl
  · simp [mul]

theorem dragStep_zero_area (v : Vec2) (av o : ℝ) (cm : Vec2) (b : Vec2 × ℝ)
    (comp : Component) (h : comp.drag_area = 0) :
    dragStep v av o cm b comp = b := by
  simp [dragStep, h, aerodynamic_drag_zero_area, rotate_zero_vec, add_zero_vec,
    cross_z_zero_vec]

theorem ascent_mass (me mt T c cap L py vy : ℝ) :
    (ascentShip me mt T c cap L py vy).mass = me + (mt + 0) := by
  simp [ascentShip, Spaceship.mass, Spaceship.all_components]

theorem ascent_com (me mt T c cap L py vy : ℝ) (hm : 0 < me + mt) :
    (ascentShip me mt T c cap L py vy).center_of_mass = (0, 0) := by
  have hmass : (ascentShip me mt T c cap L py vy).mass = me + mt := by
    rw [ascent_mass]; ring
  simp only [Spaceship.center_of_mass, hmass]
  rw [if_neg (ne_of_gt hm)]
  simp [ascentShip, Spaceship.all_components]

theorem ascent_moment (me mt T c cap L py vy : ℝ) (hm : 0 < me + mt) :
    (ascentShip me mt T c cap L py vy).moment_of_inertia = 0 := by
  simp only [Spaceship.moment_of_inertia, ascent_com me mt T c cap L py vy hm]
  simp [ascentShip, Spaceship.all_components, Component.inertia]

theorem ascent_propulsion (me mt T c cap L : ℝ) (hc : 0 ≤ c) (hcL : c ≤ L) :
    compute_propulsion [⟨⟨"lift engine", me, (0, 0), (0, 0), 0, none⟩, T, c, 0, (1, 0)⟩]
        [⟨⟨"lift tank", mt, (0, 0), (0, 0), 0, none⟩, cap, L⟩] 1 (Real.pi / 2) (0, 0)
      = (⟨(0, T), 0, c⟩,
         [⟨⟨"lift tank", mt, (0, 0), (0, 0), 0, none⟩, cap, L - c⟩]) := by
  have hacc : propAccum
      [⟨⟨"lift engine", me, (0, 0), (0, 0), 0, none⟩, T, c, 0, (1, 0)⟩]
      (max 0 (min 1 1)) (Real.pi / 2) (0, 0) = ((0, T), 0, c) := by
    have hclamp : max 0 (min 1 (1 : ℝ)) = 1 := by norm_num
    rw [hclamp]
    norm_num [propAccum, propStep, rotate, mul, add, sub, cross_z,
      Real.cos_pi_div_two, Real.sin_pi_div_two]
  have hsum : tankSum [⟨⟨"lift tank", mt, (0, 0), (0, 0), 0, none⟩, cap, L⟩] = L := by
    simp [tankSum]
  have hmin : min L c = c := min_eq_right hcL
  simp only [compute_propulsion, hacc, hsum, hmin]
  rcases hc.lt_or_eq with hc0 | hc0
  · rw [if_pos hc0, if_pos hc0]
    have hcc : c / c = 1 := div_self (ne_of_gt hc0)
    rw [hcc]
    have hdrain : drainTanks [⟨⟨"lift tank", mt, (0, 0), (0, 0), 0, none⟩, cap, L⟩] c
        = [⟨⟨"lift tank", mt, (0, 0), (0, 0), 0, none⟩, cap, L - c⟩] := by
      rw [drainTanks, if_neg (not_le.mpr hc0)]
      simp only [drainTanks]
      simp [hmin]
    rw [hdrain]
    simp [mul]
  · rw [if_neg (by rw [← hc0]; exact lt_irrefl 0), if_neg (by rw [← hc0]; exact lt_irrefl 0)]
    rw [← hc0]
    norm_num

theorem ascent_aero (me mt : ℝ) (v : Vec2) :
    compute_aero_forces [⟨"lift engine", me, (0, 0), (0, 0), 0, none⟩,
        ⟨"lift tank", mt, (0, 0), (0, 0), 0, none⟩] [] v 0 (Real.pi / 2) (0, 0)
      = ⟨0, 0⟩ := by
  simp only [compute_aero_forces, List.foldl_cons, List.foldl_nil,
    List.foldl_nil]
  rw [dragStep_zero_area _ _ _ _ _ _ rfl, dragStep_zero_area _ _ _ _ _ _ rfl]
  rfl

theorem ascentShip_components (me mt T c cap L py vy : ℝ) :
    (ascentShip me mt T c cap L py vy).components = [] := rfl

theorem ascentShip_engines (me mt T c cap L py vy : ℝ) :
    (ascentShip me mt T c cap L py vy).engines
      = [⟨⟨"lift engine", me, (0, 0), (0, 0), 0, none⟩, T, c, 0, (1, 0)⟩] := rfl

theorem ascentShip_fuel_tanks (me mt T c cap L py vy : ℝ) :
    (ascentShip me mt T c cap L py vy).fuel_tanks
      = [⟨⟨"lift tank", mt, (0, 0), (0, 0), 0, none⟩, cap, L⟩] := rfl

theorem ascentShip_wings (me mt T c cap L py vy : ℝ) :
    (ascentShip me mt T c cap L py vy).wings = [] := rfl

theorem ascentShip_position (me mt T c cap L py vy : ℝ) :
    (ascentShip me mt T c cap L py vy).position = (0, py) := rfl

theorem ascentShip_velocity (me mt T c cap L py vy : ℝ) :
    (ascentShip me mt T c cap L py vy).velocity = (0, vy) := rfl

theorem ascentShip_orientation (me mt T c cap L py vy : ℝ) :
    (ascentShip me mt T c cap L py vy).orientation = Real.pi / 2 := rfl

theorem ascentShip_angular_velocity (me mt T c cap L py vy : ℝ) :
    (ascentShip me mt T c cap L py vy).angular_velocity = 0 := rfl

theorem ascentShip_fold (me mt T c cap L2 py vy : ℝ) :
    (⟨[], [⟨⟨"lift engine", me, (0, 0), (0, 0), 0, none⟩, T, c, 0, (1, 0)⟩],
      [⟨⟨"lift tank", mt, (0, 0), (0, 0), 0, none⟩, cap, L2⟩], [],
      (0, py), (0, vy), Real.pi / 2, 0⟩ : Spaceship)
      = ascentShip me mt T c cap L2 py vy := rfl

theorem ascentShip_all_components (me mt T c cap L py vy : ℝ) :
    (ascentShip me mt T c cap L py vy).all_components
      = [⟨"lift engine", me, (0, 0), (0, 0), 0, none⟩,
         ⟨"lift tank", mt, (0, 0), (0, 0), 0, none⟩] := rfl

/-- One full-throttle `simulate_step` of the ascent craft: fuel drops by
the per-tick consumption, the vertical velocity gains
`(T/M - g) * dt`, the altitude gains the updated velocity times `dt`, and
the orientation and angular velocity are unchanged. -/
theorem ascent_step (me mt T c cap L py vy dt : ℝ) (cs : List (String × ℝ))
    (hm : 0 < me + mt) (hc : 0 ≤ c) (hcL : c ≤ L) :
    (ascentShip me mt T c cap L py vy).simulate_step 1 dt cs
      = ascentShip me mt T c cap (L - c)
          (py + (vy + (T / (me + mt) - EARTH_GRAVITY) * dt) * dt)
          (vy + (T / (me + mt) - EARTH_GRAVITY) * dt) := by
  have hm' : me + mt ≠ 0 := ne_of_gt hm
  have hm0 : (0 : ℝ) < me + (mt + 0) := by linarith
  simp only [Spaceship.simulate_step, Spaceship.apply_controls,
    ascent_com me mt T c cap L py vy hm, ascentShip_components,
    ascentShip_engines, ascentShip_fuel_tanks, ascentShip_wings,
    ascentShip_position, ascentShip_velocity, ascentShip_orientation,
    ascentShip_angular_velocity]
  rw [ascent_propulsion me mt T c cap L hc hcL]
  dsimp only
  rw [ascentShip_fold me mt T c cap (L - c) py vy]
  rw [ascentShip_all_components me mt T c cap (L - c) py vy]
  rw [ascent_aero me mt (0, vy)]
  rw [ascent_moment me mt T c cap (L - c) py vy hm]
  rw [ascent_mass me mt T c cap (L - c) py vy]
  dsimp only
  rw [integrate, if_pos hm0, if_pos (show (0 : ℝ) < max 0 1e-3 by norm_num)]
  simp only [ascentShip, Spaceship.mk.injEq, add, mul, Prod.mk.injEq]
  norm_num
  all_goals field_simp
  all_goals try ring
  all_goals simp

/-- `simulate_step` leaves the flattened component list — and with it
every derived mass property — unchanged, because a tank's fuel level is
not part of its component attributes. -/
theorem simulate_step_all_components (s : Spaceship) (throttle dt : ℝ)
    (cs : List (String × ℝ)) :
    (s.simulate_step throttle dt cs).all_components = s.all_components := by
  simp only [Spaceship.simulate_step, Spaceship.apply_controls,
    Spaceship.all_components]
  rw [compute_propulsion_tanks_toComponent]

/-- Claim C3 (amended): mass, center of mass, and moment of inertia are
recomputed from the live component list on every access, but draining
fuel does not change them — a tank's `mass` attribute is separate from
its `fuel_level`, so after a `simulate_step` that consumes a positive
amount of fuel the mass accessor returns the same value as before, not a
strictly smaller one. -/
theorem C3_mass_unchanged (s : Spaceship) (throttle dt : ℝ)
    (cs : List (String × ℝ))
    (h : tankSum (s.simulate_step throttle dt cs).fuel_tanks
      < tankSum s.fuel_tanks) :
    (s.simulate_step throttle dt cs).mass = s.mass := by
  simp only [Spaceship.mass, simulate_step_all_components]

theorem C3_mass_unchanged_witness :
    tankSum ((ascentShip 1 1 30 1 10 5 0 0).simulate_step 1 1 []).fuel_tanks
        < tankSum (ascentShip 1 1 30 1 10 5 0 0).fuel_tanks
    ∧ ((ascentShip 1 1 30 1 10 5 0 0).simulate_step 1 1 []).mass
        = (ascentShip 1 1 30 1 10 5 0 0).mass := by
  have hstep := ascent_step 1 1 30 1 10 5 0 0 1 []
    (by norm_num) (by norm_num) (by norm_num)
  have hlt : tankSum ((ascentShip 1 1 30 1 10 5 0 0).simulate_step 1 1 []).fuel_tanks
      < tankSum (ascentShip 1 1 30 1 10 5 0 0).fuel_tanks := by
    rw [hstep, ascentShip_fuel_tanks, ascentShip_fuel_tanks]
    norm_num [tankSum]
  exact ⟨hlt, C3_mass_unchanged (ascentShip 1 1 30 1 10 5 0 0) 1 1 [] hlt⟩

/-- The original C3 statement is false on the code: this concrete
`simulate_step` consumes one unit of fuel (the tank total drops from 5 to
4), yet the mass accessor does not return a strictly smaller value. -/
theorem C3_counterexample :
    tankSum ((ascentShip 1 1 30 1 10 5 0 0).simulate_step 1 1 []).fuel_tanks
        < tankSum (ascentShip 1 1 30 1 10 5 0 0).fuel_tanks
    ∧ ¬ ((ascentShip 1 1 30 1 10 5 0 0).simulate_step 1 1 []).mass
        < (ascentShip 1 1 30 1 10 5 0 0).mass := by
  have hstep := ascent_step 1 1 30 1 10 5 0 0 1 []
    (by norm_num) (by norm_num) (by norm_num)
  constructor
  · rw [hstep, ascentShip_fuel_tanks, ascentShip_fuel_tanks]
    norm_num [tankSum]
  · rw [hstep, ascent_mass, ascent_mass]
    norm_num

/-- Closed form of the ascent trajectory: after `k ≤ n` full-throttle
ticks (with fuel for `n` ticks on board) the craft is the ascent craft
with `k` ticks of fuel drained, altitude `ascentPosY k` and vertical
velocity `ascentVel k`. -/
theorem ascentIter_closed_form (me mt T c cap L dt : ℝ) (cs : List (String × ℝ))
    (n : ℕ) (hm : 0 < me + mt) (hc : 0 ≤ c) (hL : (n : ℝ) * c ≤ L) :
    ∀ k : ℕ, k ≤ n →
      ascentIter me mt T c cap L dt cs k
        = ascentShip me mt T c cap (L - k * c) (ascentPosY me mt T dt k)
            (ascentVel me mt T dt k) := by
  intro k
  induction k with
  | zero =>
    intro _
    simp [ascentIter, ascentPosY, ascentVel]
  | succ k ih =>
    intro hk
    have hk' : k ≤ n := le_of_lt (Nat.lt_of_succ_le hk)
    have hkn : (k : ℝ) + 1 ≤ (n : ℝ) := by exact_mod_cast hk
    have hcL : c ≤ L - k * c := by nlinarith
    rw [ascentIter, ih hk', ascent_step me mt T c cap (L - k * c) _ _ dt cs hm hc hcL]
    have hfuel : L - k * c - c = L - (k + 1 : ℕ) * c := by push_cast; ring
    have hvel : ascentVel me mt T dt k + (T / (me + mt) - EARTH_GRAVITY) * dt
        = ascentVel me mt T dt (k + 1) := by
      simp only [ascentVel]
      push_cast
      ring
    have hpos : ascentPosY me mt T dt k + ascentVel me mt T dt (k + 1) * dt
        = ascentPosY me mt T dt (k + 1) := rfl
    rw [hfuel, hvel, ← hpos]

/-- Claim C9: for the symmetric single-engine ascent craft with zero net
torque contributors, orientation fixed at 90 degrees and throttle held at
1.0, once thrust over mass exceeds gravity (and fuel lasts for `n`
ticks), `position.y` strictly increases tick over tick. -/
theorem C9_vertical_ascent (me mt T c cap L dt : ℝ) (cs : List (String × ℝ))
    (n k : ℕ) (hm : 0 < me + mt) (hT : (me + mt) * EARTH_GRAVITY < T)
    (hdt : 0 < dt) (hc : 0 ≤ c) (hL : (n : ℝ) * c ≤ L) (hk : k < n) :
    (ascentIter me mt T c cap L dt cs k).position.2
      < (ascentIter me mt T c cap L dt cs (k + 1)).position.2 := by
  have h1 := ascentIter_closed_form me mt T c cap L dt cs n hm hc hL k (le_of_lt hk)
  have h2 := ascentIter_closed_form me mt T c cap L dt cs n hm hc hL (k + 1)
    (Nat.succ_le_of_lt hk)
  rw [h1, h2, ascentShip_position, ascentShip_position]
  have ha : 0 < T / (me + mt) - EARTH_GRAVITY := by
    have : EARTH_GRAVITY < T / (me + mt) := (lt_div_iff hm).mpr (by linarith)
    linarith
  have hvel : 0 < ascentVel me mt T dt (k + 1) := by
    simp only [ascentVel]
    push_cast
    have hk1 : (0 : ℝ) < (k : ℝ) + 1 := by positivity
    exact mul_pos hk1 (mul_pos ha hdt)
  have hstep : ascentPosY me mt T dt (k + 1)
      = ascentPosY me mt T dt k + ascentVel me mt T dt (k + 1) * dt := rfl
  rw [hstep]
  exact lt_add_of_pos_right _ (mul_pos hvel hdt)

theorem C9_vertical_ascent_witness :
    (ascentIter 1 1 30 1 10 10 1 [] 0).position.2
      < (ascentIter 1 1 30 1 10 10 1 [] (0 + 1)).position.2 :=
  C9_vertical_ascent 1 1 30 1 10 10 1 [] 10 0 (by norm_num)
    (by norm_num [EARTH_GRAVITY]) (by norm_num) (by norm_num)
    (by norm_num) (by norm_num)

end SpaceSim
